import Mathlib

/-!
Verification of `bin/numapde-create-new-publication.py`.

A shallow embedding of the repository's single script.  The script is a
linear program: it checks two environment variables, parses command-line
arguments, issues a POST forking a Gitlab template project, polls the new
project with GETs until its default branch is non-null (bounded retry),
issues a PUT updating the description, issues a PUT committing a README
generated from a template by string substitution, and prints success
instructions.

The embedding turns the script into a pure function `run` from a `World`
(environment variables, parsed command-line inputs, and the responses the
remote server and filesystem would give) to a `RunResult`: the ordered
trace of observable events (environment reads, argument parsing, prints to
standard output, HTTP requests, sleeps, file reads) together with the
process exit code.
-/

/-- A Python value as it appears in a request payload dictionary:
a string, an integer, or `None` (constructor `null`). -/
inductive PVal where
  | str (s : String)
  | num (n : Nat)
  | null
  deriving DecidableEq

/-- How an optional command-line flag was supplied on the command line:
not at all, as a bare flag with no following value, or with a value. -/
inductive FlagArg where
  | absent
  | presentNoValue
  | withValue (v : String)
  deriving DecidableEq

/-- Observable events of a script run, in program order: reads of
environment variables, the argparse invocation, prints to standard output,
HTTP requests with their URL and form payload, sleeps, and file reads. -/
inductive Event where
  | envRead (name : String)
  | argParse
  | print (msg : String)
  | httpPost (url : String) (payload : List (String × PVal))
  | httpGet (url : String)
  | httpPut (url : String) (payload : List (String × PVal))
  | sleep (seconds : Nat)
  | fileRead (path : String)
  deriving DecidableEq

/-- The inputs of one script run: environment variables, command-line
arguments as handed to argparse, the script's own name and directory, the
server's responses (the fork POST's status/body and the fields the script
extracts from its JSON body; the `default_branch` field of the k-th poll
GET's body; the statuses/bodies of the two PUTs), and the contents of the
`README.md.in` template file. -/
structure World where
  envServer : Option String
  envToken : Option String
  longTitle : String
  shortTitleArg : String
  namespaceArg : FlagArg
  descriptionArg : FlagArg
  scriptName : String
  scriptDir : String
  forkStatus : Nat
  forkText : String
  forkId : Nat
  forkSshUrl : String
  forkHttpUrl : String
  pollBranch : Nat → Option String
  descStatus : Nat
  descText : String
  readmeStatus : Nat
  readmeText : String
  readmeTemplate : String

/-- `POST_OK` from the script (Gitlab status for a successful POST). -/
def POST_OK : Nat := 201

/-- `PUT_OK` from the script (Gitlab status for a successful PUT). -/
def PUT_OK : Nat := 200

/-- `GET_OK` from the script, defined there as `PUT_OK`. -/
def GET_OK : Nat := PUT_OK

/-- The default namespace `'numapde/Publications'` from the script. -/
def namespaceDefault : String := "numapde/Publications"

/-- The id of the template project to fork (`templateId = 5326`). -/
def templateId : Nat := 5326

/-- Modelled from Python argparse semantics for an option declared with
`nargs` set to the question mark and a `default` but no `const`: an absent
flag yields the default, a flag given without a following value yields the
unset `const`, hence `None`, and a flag with a value yields that value. -/
def parseFlag (dflt : String) : FlagArg → Option String
  | .absent => some dflt
  | .presentNoValue => Option.none
  | .withValue v => some v

/-- Character-by-character substitution underlying Python
`str.replace(old, new)` when `old` and `new` are single characters. -/
def replaceCharAux (old new : Char) : List Char → List Char
  | [] => []
  | c :: cs => (if c = old then new else c) :: replaceCharAux old new cs

/-- Python `s.replace(old, new)` for single-character `old` and `new`,
as used by the script on the short title. -/
def pyReplaceChar (s : String) (old new : Char) : String :=
  ⟨replaceCharAux old new s.data⟩

/-- Python `str(x)` of an optional string: `None` renders as `"None"`,
as `'%s' % None` does. -/
def pyStrOpt : Option String → String
  | Option.none => "None"
  | some s => s

/-- Lift an optional string into a payload value: Python `None` becomes
`PVal.null`. -/
def optVal : Option String → PVal
  | Option.none => PVal.null
  | some s => PVal.str s

/-- Scanner state for Python percent-formatting against a mapping:
outside any directive, just after a percent sign, inside a parenthesised
key, or just after the closing parenthesis of a key. -/
inductive FmtSt where
  | normal
  | sawPct
  | inKey (acc : List Char)
  | afterKey (acc : List Char)

/-- Modelled from Python percent-formatting of a string against a mapping,
restricted to the directive forms the script's template relies on:
`%(key)s` substitutions and `%%` escapes.  Any other directive, a key
missing from the mapping, or an unterminated directive is a formatting
error (a raised exception), modelled as `Option.none`. -/
def pyFmtSM (m : String → Option String) : FmtSt → List Char → Option (List Char)
  | .normal, [] => some []
  | .sawPct, [] => Option.none
  | .inKey _, [] => Option.none
  | .afterKey _, [] => Option.none
  | .normal, c :: rest =>
      if c = '%' then pyFmtSM m .sawPct rest
      else (pyFmtSM m .normal rest).map (fun r => c :: r)
  | .sawPct, c :: rest =>
      if c = '%' then (pyFmtSM m .normal rest).map (fun r => '%' :: r)
      else if c = '(' then pyFmtSM m (.inKey []) rest
      else Option.none
  | .inKey acc, c :: rest =>
      if c = ')' then pyFmtSM m (.afterKey acc) rest
      else pyFmtSM m (.inKey (acc ++ [c])) rest
  | .afterKey acc, c :: rest =>
      if c = 's' then
        match m (String.mk acc) with
        | some v => (pyFmtSM m .normal rest).map (fun r => v.data ++ r)
        | Option.none => Option.none
      else Option.none

/-- Python `s % mapping` for a string and a mapping, in the restricted
form described at `pyFmtSM`. -/
def pyFormat (s : String) (m : String → Option String) : Option String :=
  (pyFmtSM m .normal s.data).map String.mk

/-- The `urlFormat` template of the script applied to a project id:
`'https://' + gitlabServer + '/api/v4/projects/%(projectId)d'`. -/
def urlFormat (gitlabServer : String) (projectId : Nat) : String :=
  "https://" ++ gitlabServer ++ "/api/v4/projects/" ++ toString projectId

/-- The fork action URL: the template project's URL with `/fork` appended. -/
def forkUrl (gitlabServer : String) : String :=
  urlFormat gitlabServer templateId ++ "/fork"

/-- The URL of the README.md file in the new repository. -/
def readmeUrlOf (gitlabServer : String) (newId : Nat) : String :=
  urlFormat gitlabServer newId ++ "/repository/files/README.md"

/-- The payload of the fork POST:
`{'namespace': namespace, 'name': longTitle, 'id': templateId, 'path': shortTitle}`. -/
def forkPayloadOf (ns : Option String) (longTitle shortTitle : String) :
    List (String × PVal) :=
  [("namespace", optVal ns), ("name", PVal.str longTitle),
   ("id", PVal.num templateId), ("path", PVal.str shortTitle)]

/-- The message announcing the fork request. -/
def forkRequestMsg (url gitlabServer : String) (ns : Option String)
    (shortTitle : String) : String :=
  "Requesting the Gitlab server to fork " ++ url ++ " into https://" ++
    gitlabServer ++ "/" ++ pyStrOpt ns ++ "/" ++ shortTitle ++ "."

/-- The diagnostic printed when the fork POST returns an unexpected status. -/
def forkFailMsg (status : Nat) (text : String) : String :=
  "Something went wrong during forking. The status code is " ++
    toString status ++ " and the result text is " ++ text ++ "."

/-- The message printed before polling, with `nWaitMax * nWaitTime` seconds. -/
def waitingMsg : String :=
  "Waiting at most " ++ toString (5 * 2) ++
    " seconds to allow Gitlab to create the project..."

/-- The diagnostic printed when the poll times out. -/
def timeoutMsg (gitlabServer : String) (ns : Option String) : String :=
  "the project creation took a too long time. Please check yourself if a project with your short title exists at https://" ++
    gitlabServer ++ "/" ++ pyStrOpt ns

/-- The diagnostic printed when the description PUT returns an unexpected
status.  Note it includes only the response text, not the status code. -/
def descFailMsg (text : String) : String :=
  "Updating project description failed. The result text is: " ++ text

/-- The diagnostic printed when the README PUT returns an unexpected
status.  Note it includes only the response text, not the status code. -/
def readmeFailMsg (text : String) : String :=
  "Commiting README.md failed. The result text is: " ++ text

/-- The first success message, with the clone command. -/
def successMsg1 (sshUrl : String) : String :=
  "Clone the new repository using\n  git clone --recurse-submodules " ++ sshUrl

/-- The second success message. -/
def successMsg2 : String :=
  "Then update the submodules via\n  bin/numapde-submodules-update.sh"

/-- The mapping used to instantiate the README template:
`{'PUBLICATION_TITLE': longTitle, 'HTTP_URL_TO_REPO': httpURLToRepo, 'SSH_URL_TO_REPO': sshURLToRepo}`. -/
def readmeMap (longTitle httpUrl sshUrl : String) : String → Option String :=
  fun k =>
    if k = "PUBLICATION_TITLE" then some longTitle
    else if k = "HTTP_URL_TO_REPO" then some httpUrl
    else if k = "SSH_URL_TO_REPO" then some sshUrl
    else Option.none

/-- The readiness poll loop of the script.  `pb k` is the
`default_branch` field of the k-th GET response (the initial GET, issued
before the loop, is number 0).  The loop body runs while the current
`default_branch` is `None` and the remaining retry budget is positive;
each iteration sleeps `nWaitTime = 2` seconds, re-issues the GET, and
decrements the budget.  Returns the events of the loop body and the final
`default_branch` value. -/
def pollLoop (pb : Nat → Option String) (url : String) :
    Nat → Nat → Option String → List Event × Option String
  | 0, _, cur => ([], cur)
  | Nat.succ n, k, cur =>
    match cur with
    | some b => ([], some b)
    | Option.none =>
      let rest := pollLoop pb url n (k + 1) (pb (k + 1))
      (Event.sleep 2 :: Event.httpGet url :: rest.1, rest.2)

/-- The final `default_branch` value the poll loop ends with, independent
of the URL polled. -/
def pollFinalAux (pb : Nat → Option String) :
    Nat → Nat → Option String → Option String
  | 0, _, cur => cur
  | Nat.succ n, k, cur =>
    match cur with
    | some b => some b
    | Option.none => pollFinalAux pb n (k + 1) (pb (k + 1))

/-- The `default_branch` value left after the script's poll (initial GET
plus at most `nWaitMax = 5` retries). -/
def pollFinal (w : World) : Option String :=
  pollFinalAux w.pollBranch 5 0 (w.pollBranch 0)

/-- The result of a run: the event trace and the process exit code. -/
structure RunResult where
  trace : List Event
  exitCode : Nat
  deriving DecidableEq

/-- The script body after both environment checks succeeded, translated
statement by statement: hyphenate the short title, announce and issue the
fork POST (exit 1 with a diagnostic on unexpected status), issue the
initial readiness GET and run the bounded poll loop (exit 1 with a
diagnostic on timeout), issue the description PUT (exit 1 with a
diagnostic on unexpected status), read the README template and instantiate
it (an exception from formatting aborts with exit code 1), issue the
README commit PUT (exit 1 with a diagnostic on unexpected status), and
print the success instructions. -/
def runMain (w : World) (sv : String) : RunResult :=
  let ns := parseFlag namespaceDefault w.namespaceArg
  let nd := parseFlag "" w.descriptionArg
  let shortTitle := pyReplaceChar w.shortTitleArg ' ' '-'
  let url := forkUrl sv
  let fpl := forkPayloadOf ns w.longTitle shortTitle
  let pre := [Event.print (forkRequestMsg url sv ns shortTitle), Event.httpPost url fpl]
  if w.forkStatus ≠ POST_OK then
    ⟨pre ++ [Event.print (forkFailMsg w.forkStatus w.forkText)], 1⟩
  else
    let nu := urlFormat sv w.forkId
    let pre2 := pre ++ [Event.print waitingMsg, Event.httpGet nu]
    let poll := pollLoop w.pollBranch nu 5 0 (w.pollBranch 0)
    let pre3 := pre2 ++ poll.1
    if poll.2 = Option.none then
      ⟨pre3 ++ [Event.print (timeoutMsg sv ns)], 1⟩
    else
      let dpl := [("id", PVal.num w.forkId), ("description", optVal nd)]
      let pre4 := pre3 ++ [Event.httpPut nu dpl]
      if w.descStatus ≠ PUT_OK then
        ⟨pre4 ++ [Event.print (descFailMsg w.descText)], 1⟩
      else
        let rp := w.scriptDir ++ "/../README.md.in"
        let pre5 := pre4 ++ [Event.print ("Using template " ++ rp ++ "."), Event.fileRead rp]
        match pyFormat w.readmeTemplate (readmeMap w.longTitle w.forkHttpUrl w.forkSshUrl) with
        | Option.none => ⟨pre5, 1⟩
        | some readme =>
          let rurl := readmeUrlOf sv w.forkId
          let rpl := [("file_path", PVal.str "README%2Emd"), ("branch", PVal.str "master"),
                      ("content", PVal.str readme),
                      ("commit_message", PVal.str (w.scriptName ++ " auto-generates README.md"))]
          let pre6 := pre5 ++ [Event.httpPut rurl rpl]
          if w.readmeStatus ≠ PUT_OK then
            ⟨pre6 ++ [Event.print (readmeFailMsg w.readmeText)], 1⟩
          else
            ⟨pre6 ++ [Event.print (successMsg1 w.forkSshUrl), Event.print successMsg2], 0⟩

/-- The whole script, in module-level execution order: read and check
`NUMAPDE_GITLAB_SERVER` (exit 1 with a message if unset), parse the
command-line arguments, read and check `NUMAPDE_GITLAB_TOKEN` (exit 1
with a message if unset), then run the script body. -/
def run (w : World) : RunResult :=
  match w.envServer with
  | Option.none =>
    ⟨[Event.envRead "NUMAPDE_GITLAB_SERVER",
      Event.print "Please set the NUMAPDE_GITLAB_SERVER variable."], 1⟩
  | some sv =>
    match w.envToken with
    | Option.none =>
      ⟨[Event.envRead "NUMAPDE_GITLAB_SERVER", Event.argParse,
        Event.envRead "NUMAPDE_GITLAB_TOKEN",
        Event.print "Please set the NUMAPDE_GITLAB_TOKEN variable to your personal Gitlab access token."], 1⟩
    | some _tk =>
      let res := runMain w sv
      ⟨[Event.envRead "NUMAPDE_GITLAB_SERVER", Event.argParse,
        Event.envRead "NUMAPDE_GITLAB_TOKEN"] ++ res.trace, res.exitCode⟩

/-- Whether an event is an HTTP request. -/
def isHttp : Event → Bool
  | .httpPost _ _ => true
  | .httpGet _ => true
  | .httpPut _ _ => true
  | _ => false

/-- The HTTP requests of a trace, in order. -/
def httpEvents (t : List Event) : List Event := t.filter isHttp

/-- Whether an event is an HTTP GET. -/
def isGet : Event → Bool
  | .httpGet _ => true
  | _ => false

/-- Whether an event is a sleep. -/
def isSleep : Event → Bool
  | .sleep _ => true
  | _ => false

/-- The messages printed to standard output by a trace, in order. -/
def printedMsgs : List Event → List String
  | [] => []
  | .print m :: t => m :: printedMsgs t
  | _ :: t => printedMsgs t

/-- How many events of a trace satisfy a predicate. -/
def countE (p : Event → Bool) (t : List Event) : Nat := (t.filter p).length

/-- Whether the first list occurs as a contiguous run inside the second. -/
def leadsList : List Char → List Char → Bool
  | [], _ => true
  | _ :: _, [] => false
  | a :: as, b :: bs => a = b && leadsList as bs

/-- Whether `needle` occurs contiguously somewhere in `hay`. -/
def occursIn (needle : List Char) : List Char → Bool
  | [] => leadsList needle []
  | c :: cs => leadsList needle (c :: cs) || occursIn needle cs

/-- The index of the first occurrence of an event in a trace. -/
def firstIdx (e : Event) : List Event → Option Nat
  | [] => Option.none
  | x :: xs => if x = e then some 0 else (firstIdx e xs).map (· + 1)

/-- The three checked HTTP statuses are the expected ones and the poll
obtains a default branch: the success condition of a run as far as the
remote server is concerned. -/
def httpSuccess (w : World) : Prop :=
  w.forkStatus = POST_OK ∧ pollFinal w ≠ Option.none ∧
    w.descStatus = PUT_OK ∧ w.readmeStatus = PUT_OK

/-! ## Named trace pieces of the script body -/

/-- The fork-announcement message of a run. -/
def forkMsgOf (w : World) (sv : String) : String :=
  forkRequestMsg (forkUrl sv) sv (parseFlag namespaceDefault w.namespaceArg)
    (pyReplaceChar w.shortTitleArg ' ' '-')

/-- The fork payload of a run. -/
def fplOf (w : World) : List (String × PVal) :=
  forkPayloadOf (parseFlag namespaceDefault w.namespaceArg) w.longTitle
    (pyReplaceChar w.shortTitleArg ' ' '-')

/-- The trace up to and including the fork POST. -/
def preOf (w : World) (sv : String) : List Event :=
  [Event.print (forkMsgOf w sv), Event.httpPost (forkUrl sv) (fplOf w)]

/-- The trace up to and including the initial readiness GET. -/
def pre2Of (w : World) (sv : String) : List Event :=
  preOf w sv ++ [Event.print waitingMsg, Event.httpGet (urlFormat sv w.forkId)]

/-- The events of the poll loop of a run. -/
def pollEvOf (w : World) (sv : String) : List Event :=
  (pollLoop w.pollBranch (urlFormat sv w.forkId) 5 0 (w.pollBranch 0)).1

/-- The trace up to the end of the poll loop. -/
def pre3Of (w : World) (sv : String) : List Event :=
  pre2Of w sv ++ pollEvOf w sv

/-- The description-update payload of a run. -/
def dplOf (w : World) : List (String × PVal) :=
  [("id", PVal.num w.forkId), ("description", optVal (parseFlag "" w.descriptionArg))]

/-- The trace up to and including the description PUT. -/
def pre4Of (w : World) (sv : String) : List Event :=
  pre3Of w sv ++ [Event.httpPut (urlFormat sv w.forkId) (dplOf w)]

/-- The path of the README template of a run. -/
def rpOf (w : World) : String := w.scriptDir ++ "/../README.md.in"

/-- The trace up to and including the template file read. -/
def pre5Of (w : World) (sv : String) : List Event :=
  pre4Of w sv ++ [Event.print ("Using template " ++ rpOf w ++ "."), Event.fileRead (rpOf w)]

/-- The README-commit payload of a run with instantiated README `readme`. -/
def rplOf (w : World) (readme : String) : List (String × PVal) :=
  [("file_path", PVal.str "README%2Emd"), ("branch", PVal.str "master"),
   ("content", PVal.str readme),
   ("commit_message", PVal.str (w.scriptName ++ " auto-generates README.md"))]

/-- The trace up to and including the README commit PUT. -/
def pre6Of (w : World) (sv readme : String) : List Event :=
  pre5Of w sv ++ [Event.httpPut (readmeUrlOf sv w.forkId) (rplOf w readme)]

/-- The three leading events of every run whose environment checks pass. -/
def envTrace : List Event :=
  [Event.envRead "NUMAPDE_GITLAB_SERVER", Event.argParse,
   Event.envRead "NUMAPDE_GITLAB_TOKEN"]

/-! ## Reduction lemmas -/

lemma run_some (w : World) (sv tk : String) (hs : w.envServer = some sv)
    (ht : w.envToken = some tk) :
    run w = ⟨envTrace ++ (runMain w sv).trace, (runMain w sv).exitCode⟩ := by
  unfold run
  rw [hs, ht]
  rfl

lemma pollLoop_snd (pb : Nat → Option String) (url : String) :
    ∀ n k cur, (pollLoop pb url n k cur).2 = pollFinalAux pb n k cur := by
  intro n
  induction n with
  | zero => intro k cur; rfl
  | succ n ih =>
    intro k cur
    cases cur with
    | none => simp only [pollLoop, pollFinalAux]; exact ih _ _
    | some b => rfl

lemma pollLoop_snd_run (w : World) (sv : String) :
    (pollLoop w.pollBranch (urlFormat sv w.forkId) 5 0 (w.pollBranch 0)).2 = pollFinal w := by
  rw [pollLoop_snd]
  rfl

/-- The shape of `m` poll-loop iterations: `m` sleep-then-GET pairs. -/
def pollEvts (url : String) : Nat → List Event
  | 0 => []
  | Nat.succ m => Event.sleep 2 :: Event.httpGet url :: pollEvts url m

lemma pollLoop_evts (pb : Nat → Option String) (url : String) :
    ∀ n k cur, ∃ m, m ≤ n ∧ (pollLoop pb url n k cur).1 = pollEvts url m := by
  intro n
  induction n with
  | zero => intro k cur; exact ⟨0, Nat.le_refl 0, rfl⟩
  | succ n ih =>
    intro k cur
    cases cur with
    | none =>
      obtain ⟨m, hm, he⟩ := ih (k + 1) (pb (k + 1))
      refine ⟨m + 1, by omega, ?_⟩
      simp only [pollLoop, pollEvts]
      rw [he]
    | some b => exact ⟨0, Nat.zero_le _, rfl⟩

lemma pollEvts_filter_get (url : String) :
    ∀ m, (pollEvts url m).filter isGet = List.replicate m (Event.httpGet url) := by
  intro m
  induction m with
  | zero => rfl
  | succ m ih => simp [pollEvts, List.filter, isGet, ih, List.replicate]

lemma pollEvts_filter_http (url : String) :
    ∀ m, (pollEvts url m).filter isHttp = List.replicate m (Event.httpGet url) := by
  intro m
  induction m with
  | zero => rfl
  | succ m ih => simp [pollEvts, List.filter, isHttp, ih, List.replicate]

lemma pollEvts_filter_sleep (url : String) :
    ∀ m, (pollEvts url m).filter isSleep = List.replicate m (Event.sleep 2) := by
  intro m
  induction m with
  | zero => rfl
  | succ m ih => simp [pollEvts, List.filter, isSleep, ih, List.replicate]

lemma pollEvts_mem (url : String) :
    ∀ m, ∀ e ∈ pollEvts url m, e = Event.sleep 2 ∨ e = Event.httpGet url := by
  intro m
  induction m with
  | zero => intro e he; cases he
  | succ m ih =>
    intro e he
    simp only [pollEvts, List.mem_cons] at he
    rcases he with h | h | h
    · exact Or.inl h
    · exact Or.inr h
    · exact ih e h

/-- Under the conditions of the failing-poll branch: if every poll response
up to the budget has a null default branch, the poll ends with `none` and
runs the full five retries. -/
lemma poll_all_none (pb : Nat → Option String) (url : String) :
    ∀ n k, (∀ i, k ≤ i → i ≤ k + n → pb i = Option.none) →
      pollFinalAux pb n k (pb k) = Option.none ∧
      (pollLoop pb url n k (pb k)).1 = pollEvts url n := by
  intro n
  induction n with
  | zero =>
    intro k h
    have hk : pb k = Option.none := h k (Nat.le_refl k) (by omega)
    exact ⟨hk, rfl⟩
  | succ n ih =>
    intro k h
    have hk : pb k = Option.none := h k (Nat.le_refl k) (by omega)
    have ih' := ih (k + 1) (fun i h1 h2 => h i (by omega) (by omega))
    constructor
    · rw [hk]
      simp only [pollFinalAux]
      exact ih'.1
    · rw [hk]
      simp only [pollLoop, pollEvts]
      rw [ih'.2]

lemma runMain_forkFail (w : World) (sv : String) (hf : w.forkStatus ≠ POST_OK) :
    runMain w sv = ⟨preOf w sv ++ [Event.print (forkFailMsg w.forkStatus w.forkText)], 1⟩ := by
  unfold runMain
  rw [if_pos hf]
  rfl

lemma runMain_timeout (w : World) (sv : String) (hf : w.forkStatus = POST_OK)
    (hp : pollFinal w = Option.none) :
    runMain w sv =
      ⟨pre3Of w sv ++ [Event.print (timeoutMsg sv (parseFlag namespaceDefault w.namespaceArg))], 1⟩ := by
  unfold runMain
  rw [if_neg (by simp [hf])]
  rw [if_pos (by rw [pollLoop_snd_run]; exact hp)]
  rfl

lemma runMain_descFail (w : World) (sv : String) (hf : w.forkStatus = POST_OK)
    (hp : pollFinal w ≠ Option.none) (hd : w.descStatus ≠ PUT_OK) :
    runMain w sv = ⟨pre4Of w sv ++ [Event.print (descFailMsg w.descText)], 1⟩ := by
  unfold runMain
  rw [if_neg (by simp [hf])]
  rw [if_neg (by rw [pollLoop_snd_run]; exact hp)]
  rw [if_pos hd]
  rfl

lemma runMain_fmtFail (w : World) (sv : String) (hf : w.forkStatus = POST_OK)
    (hp : pollFinal w ≠ Option.none) (hd : w.descStatus = PUT_OK)
    (hm : pyFormat w.readmeTemplate (readmeMap w.longTitle w.forkHttpUrl w.forkSshUrl) = Option.none) :
    runMain w sv = ⟨pre5Of w sv, 1⟩ := by
  unfold runMain
  rw [if_neg (by simp [hf])]
  rw [if_neg (by rw [pollLoop_snd_run]; exact hp)]
  rw [if_neg (by simp [hd])]
  rw [hm]
  rfl

lemma runMain_readmeFail (w : World) (sv r : String) (hf : w.forkStatus = POST_OK)
    (hp : pollFinal w ≠ Option.none) (hd : w.descStatus = PUT_OK)
    (hm : pyFormat w.readmeTemplate (readmeMap w.longTitle w.forkHttpUrl w.forkSshUrl) = some r)
    (hr : w.readmeStatus ≠ PUT_OK) :
    runMain w sv = ⟨pre6Of w sv r ++ [Event.print (readmeFailMsg w.readmeText)], 1⟩ := by
  unfold runMain
  rw [if_neg (by simp [hf])]
  rw [if_neg (by rw [pollLoop_snd_run]; exact hp)]
  rw [if_neg (by simp [hd])]
  rw [hm]
  dsimp only
  rw [if_pos hr]
  rfl

lemma runMain_ok (w : World) (sv r : String) (hf : w.forkStatus = POST_OK)
    (hp : pollFinal w ≠ Option.none) (hd : w.descStatus = PUT_OK)
    (hm : pyFormat w.readmeTemplate (readmeMap w.longTitle w.forkHttpUrl w.forkSshUrl) = some r)
    (hr : w.readmeStatus = PUT_OK) :
    runMain w sv =
      ⟨pre6Of w sv r ++ [Event.print (successMsg1 w.forkSshUrl), Event.print successMsg2], 0⟩ := by
  unfold runMain
  rw [if_neg (by simp [hf])]
  rw [if_neg (by rw [pollLoop_snd_run]; exact hp)]
  rw [if_neg (by simp [hd])]
  rw [hm]
  dsimp only
  rw [if_neg (by simp [hr])]
  rfl

lemma printedMsgs_append (a b : List Event) :
    printedMsgs (a ++ b) = printedMsgs a ++ printedMsgs b := by
  induction a with
  | nil => rfl
  | cons x xs ih => cases x <;> simp [printedMsgs, ih]

lemma countE_append (p : Event → Bool) (a b : List Event) :
    countE p (a ++ b) = countE p a + countE p b := by
  simp [countE, List.filter_append]

/-- Past the poll loop, the rest of any run issues no GET and no sleep. -/
lemma runMain_decomp (w : World) (sv : String) (hf : w.forkStatus = POST_OK) :
    ∃ suffix, (runMain w sv).trace = pre3Of w sv ++ suffix ∧
      suffix.filter isGet = [] ∧ suffix.filter isSleep = [] := by
  by_cases hp : pollFinal w = Option.none
  · rw [runMain_timeout w sv hf hp]
    exact ⟨[Event.print (timeoutMsg sv (parseFlag namespaceDefault w.namespaceArg))],
      rfl, rfl, rfl⟩
  · by_cases hd : w.descStatus = PUT_OK
    · cases hm : pyFormat w.readmeTemplate (readmeMap w.longTitle w.forkHttpUrl w.forkSshUrl) with
      | none =>
        rw [runMain_fmtFail w sv hf hp hd hm]
        refine ⟨[Event.httpPut (urlFormat sv w.forkId) (dplOf w),
          Event.print ("Using template " ++ rpOf w ++ "."), Event.fileRead (rpOf w)],
          ?_, rfl, rfl⟩
        simp [pre5Of, pre4Of, List.append_assoc]
      | some r =>
        by_cases hr : w.readmeStatus = PUT_OK
        · rw [runMain_ok w sv r hf hp hd hm hr]
          refine ⟨[Event.httpPut (urlFormat sv w.forkId) (dplOf w),
            Event.print ("Using template " ++ rpOf w ++ "."), Event.fileRead (rpOf w),
            Event.httpPut (readmeUrlOf sv w.forkId) (rplOf w r),
            Event.print (successMsg1 w.forkSshUrl), Event.print successMsg2],
            ?_, rfl, rfl⟩
          simp [pre6Of, pre5Of, pre4Of, List.append_assoc]
        · rw [runMain_readmeFail w sv r hf hp hd hm hr]
          refine ⟨[Event.httpPut (urlFormat sv w.forkId) (dplOf w),
            Event.print ("Using template " ++ rpOf w ++ "."), Event.fileRead (rpOf w),
            Event.httpPut (readmeUrlOf sv w.forkId) (rplOf w r),
            Event.print (readmeFailMsg w.readmeText)],
            ?_, rfl, rfl⟩
          simp [pre6Of, pre5Of, pre4Of, List.append_assoc]
    · rw [runMain_descFail w sv hf hp hd]
      refine ⟨[Event.httpPut (urlFormat sv w.forkId) (dplOf w),
        Event.print (descFailMsg w.descText)], ?_, rfl, rfl⟩
      simp [pre4Of, List.append_assoc]

/-- Every run past the environment checks starts with the fork
announcement and the fork POST. -/
lemma runMain_starts (w : World) (sv : String) :
    ∃ rest, (runMain w sv).trace = preOf w sv ++ rest := by
  by_cases hf : w.forkStatus = POST_OK
  · obtain ⟨suffix, hdec, _, _⟩ := runMain_decomp w sv hf
    refine ⟨[Event.print waitingMsg, Event.httpGet (urlFormat sv w.forkId)] ++
      pollEvOf w sv ++ suffix, ?_⟩
    rw [hdec]
    simp [pre3Of, pre2Of, List.append_assoc]
  · rw [runMain_forkFail w sv hf]
    exact ⟨[Event.print (forkFailMsg w.forkStatus w.forkText)], rfl⟩

lemma run_trace_poll (w : World) (sv tk : String) (hs : w.envServer = some sv)
    (ht : w.envToken = some tk) (hf : w.forkStatus = POST_OK) :
    ∃ m suffix, m ≤ 5 ∧
      (run w).trace =
        envTrace ++ pre2Of w sv ++ pollEvts (urlFormat sv w.forkId) m ++ suffix ∧
      suffix.filter isGet = [] ∧ suffix.filter isSleep = [] := by
  obtain ⟨suffix, hdec, hgs, hss⟩ := runMain_decomp w sv hf
  obtain ⟨m, hm, he⟩ := pollLoop_evts w.pollBranch (urlFormat sv w.forkId) 5 0 (w.pollBranch 0)
  refine ⟨m, suffix, hm, ?_, hgs, hss⟩
  rw [run_some w sv tk hs ht]
  show envTrace ++ (runMain w sv).trace = _
  rw [hdec]
  unfold pre3Of pollEvOf
  rw [he]
  simp [List.append_assoc]

/-- C1: after a successful fork, the script polls the new project with GET
requests until `default_branch` is non-null, in a bounded retry loop of at
most 5 retries (at most 6 GETs counting the initial one), each retry
preceded by a sleep of exactly 2 seconds; the loop always ends, and when
`default_branch` is still null after the last attempt the run prints the
timeout diagnostic and ends with exit code 1. -/
theorem poll_is_bounded_retry_with_timeout_exit (w : World) (sv tk : String)
    (hs : w.envServer = some sv) (ht : w.envToken = some tk)
    (hf : w.forkStatus = POST_OK) :
    countE isGet (run w).trace ≤ 6 ∧
    countE isSleep (run w).trace ≤ 5 ∧
    (∀ e ∈ (run w).trace, isSleep e = true → e = Event.sleep 2) ∧
    ((∀ i, i ≤ 5 → w.pollBranch i = Option.none) →
      (run w).exitCode = 1 ∧ countE isGet (run w).trace = 6 ∧
      timeoutMsg sv (parseFlag namespaceDefault w.namespaceArg) ∈
        printedMsgs (run w).trace) := by
  obtain ⟨m, suffix, hm, htr, hgs, hss⟩ := run_trace_poll w sv tk hs ht hf
  have henv : List.filter isGet envTrace = [] := rfl
  have henv2 : List.filter isSleep envTrace = [] := rfl
  have hpre : List.filter isGet (pre2Of w sv) = [Event.httpGet (urlFormat sv w.forkId)] := rfl
  have hpre2 : List.filter isSleep (pre2Of w sv) = [] := rfl
  have hcg : countE isGet (run w).trace = 1 + m := by
    rw [htr]
    unfold countE
    simp only [List.filter_append, henv, hpre, pollEvts_filter_get, hgs,
      List.length_append, List.length_replicate, List.nil_append, List.append_nil]
    try simp
  have hcs : countE isSleep (run w).trace = m := by
    rw [htr]
    unfold countE
    simp only [List.filter_append, henv2, hpre2, pollEvts_filter_sleep, hss,
      List.length_append, List.length_replicate, List.nil_append, List.append_nil]
    try simp
  refine ⟨by omega, by omega, ?_, ?_⟩
  · intro e he hsl
    rw [htr] at he
    simp only [List.mem_append] at he
    rcases he with ((he | he) | he) | he
    · unfold envTrace at he
      simp only [List.mem_cons, List.not_mem_nil, or_false] at he
      rcases he with he | he | he <;> subst he <;> simp [isSleep] at hsl
    · unfold pre2Of preOf at he
      simp only [List.mem_append, List.mem_cons, List.not_mem_nil, or_false] at he
      rcases he with (he | he) | he | he <;> subst he <;> simp [isSleep] at hsl
    · rcases pollEvts_mem (urlFormat sv w.forkId) m e he with h | h
      · exact h
      · subst h; simp [isSleep] at hsl
    · exfalso
      have : e ∈ suffix.filter isSleep := List.mem_filter.mpr ⟨he, hsl⟩
      rw [hss] at this
      exact List.not_mem_nil e this
  · intro hall
    have hpoll := poll_all_none w.pollBranch (urlFormat sv w.forkId) 5 0
      (fun i _ h2 => hall i (by omega))
    have hpf : pollFinal w = Option.none := hpoll.1
    have hmt := runMain_timeout w sv hf hpf
    have hrun := run_some w sv tk hs ht
    refine ⟨?_, ?_, ?_⟩
    · rw [hrun, hmt]
    · rw [hrun, hmt]
      show countE isGet (envTrace ++ (pre2Of w sv ++ pollEvOf w sv ++
        [Event.print (timeoutMsg sv (parseFlag namespaceDefault w.namespaceArg))])) = 6
      unfold pollEvOf
      rw [hpoll.2]
      unfold countE
      simp only [List.filter_append, henv, hpre, pollEvts_filter_get,
        List.length_append, List.length_replicate]
      rfl
    · rw [hrun, hmt]
      show _ ∈ printedMsgs (envTrace ++ (pre3Of w sv ++
        [Event.print (timeoutMsg sv (parseFlag namespaceDefault w.namespaceArg))]))
      rw [printedMsgs_append, printedMsgs_append]
      refine List.mem_append.mpr (Or.inr (List.mem_append.mpr (Or.inr ?_)))
      simp [printedMsgs]

/-! ## Concrete worlds for witnesses and counterexamples -/

/-- A fully successful run: both environment variables set, server
responses all as expected, project immediately ready. -/
def wBase : World where
  envServer := some "gitlab.example.org"
  envToken := some "token123"
  longTitle := "ADMM on Riemannian manifolds"
  shortTitleArg := "Riemannian ADMM"
  namespaceArg := FlagArg.absent
  descriptionArg := FlagArg.absent
  scriptName := "bin/numapde-create-new-publication.py"
  scriptDir := "/opt/numapde/bin"
  forkStatus := 201
  forkText := "ok"
  forkId := 7
  forkSshUrl := "git@gitlab.example.org:numapde/Publications/Riemannian-ADMM.git"
  forkHttpUrl := "https://gitlab.example.org/numapde/Publications/Riemannian-ADMM.git"
  pollBranch := fun _ => some "master"
  descStatus := 200
  descText := ""
  readmeStatus := 200
  readmeText := ""
  readmeTemplate := "# %(PUBLICATION_TITLE)s\nClone: %(SSH_URL_TO_REPO)s\nWeb: %(HTTP_URL_TO_REPO)s\n"

/-- A run whose project never becomes ready: every poll returns a null
default branch. -/
def wTimeout : World := { wBase with pollBranch := fun _ => Option.none }

/-- A run with `NUMAPDE_GITLAB_SERVER` unset. -/
def wNoServer : World := { wBase with envServer := Option.none }

/-- A run with `NUMAPDE_GITLAB_TOKEN` unset. -/
def wNoToken : World := { wBase with envToken := Option.none }

/-- A run whose fork POST fails with status 500. -/
def wForkFail : World := { wBase with forkStatus := 500, forkText := "Server Error" }

/-- A run whose description PUT fails with status 404. -/
def wDescFail : World := { wBase with descStatus := 404, descText := "err" }

/-- A successful run whose new project reports default branch `main`. -/
def wMain : World := { wBase with pollBranch := fun _ => some "main" }

/-- A run whose optional flags were both passed without a value. -/
def wBareFlags : World :=
  { wBase with namespaceArg := FlagArg.presentNoValue,
               descriptionArg := FlagArg.presentNoValue }

theorem poll_is_bounded_retry_with_timeout_exit_witness :
    (run wTimeout).exitCode = 1 ∧ countE isGet (run wTimeout).trace = 6 ∧
    timeoutMsg "gitlab.example.org" (some "numapde/Publications") ∈
      printedMsgs (run wTimeout).trace :=
  (poll_is_bounded_retry_with_timeout_exit wTimeout "gitlab.example.org" "token123"
    rfl rfl rfl).2.2.2 (fun _ _ => rfl)

lemma mem_run_of_mem_runMain (w : World) (sv tk : String) (hs : w.envServer = some sv)
    (ht : w.envToken = some tk) (e : Event) (h : e ∈ (runMain w sv).trace) :
    e ∈ (run w).trace := by
  rw [run_some w sv tk hs ht]
  exact List.mem_append.mpr (Or.inr h)

lemma forkPost_mem (w : World) (sv : String) :
    Event.httpPost (forkUrl sv) (fplOf w) ∈ (runMain w sv).trace := by
  obtain ⟨rest, hr⟩ := runMain_starts w sv
  rw [hr]
  simp [preOf]

lemma descPut_mem (w : World) (sv : String) (hf : w.forkStatus = POST_OK)
    (hp : pollFinal w ≠ Option.none) :
    Event.httpPut (urlFormat sv w.forkId) (dplOf w) ∈ (runMain w sv).trace := by
  by_cases hd : w.descStatus = PUT_OK
  · cases hm : pyFormat w.readmeTemplate (readmeMap w.longTitle w.forkHttpUrl w.forkSshUrl) with
    | none =>
      rw [runMain_fmtFail w sv hf hp hd hm]
      simp [pre5Of, pre4Of]
    | some r =>
      by_cases hr : w.readmeStatus = PUT_OK
      · rw [runMain_ok w sv r hf hp hd hm hr]
        simp [pre6Of, pre5Of, pre4Of]
      · rw [runMain_readmeFail w sv r hf hp hd hm hr]
        simp [pre6Of, pre5Of, pre4Of]
  · rw [runMain_descFail w sv hf hp hd]
    simp [pre4Of]

lemma readmePut_mem (w : World) (sv r : String) (hf : w.forkStatus = POST_OK)
    (hp : pollFinal w ≠ Option.none) (hd : w.descStatus = PUT_OK)
    (hm : pyFormat w.readmeTemplate (readmeMap w.longTitle w.forkHttpUrl w.forkSshUrl) = some r) :
    Event.httpPut (readmeUrlOf sv w.forkId) (rplOf w r) ∈ (runMain w sv).trace := by
  by_cases hr : w.readmeStatus = PUT_OK
  · rw [runMain_ok w sv r hf hp hd hm hr]
    simp [pre6Of]
  · rw [runMain_readmeFail w sv r hf hp hd hm hr]
    simp [pre6Of]

/-- C4: if `NUMAPDE_GITLAB_SERVER` or `NUMAPDE_GITLAB_TOKEN` is unset, the
script prints a message asking the user to set it and exits with code 1
without issuing any HTTP request. -/
theorem missing_env_var_exits_without_http (w : World) :
    (w.envServer = Option.none →
      (run w).exitCode = 1 ∧
      "Please set the NUMAPDE_GITLAB_SERVER variable." ∈ printedMsgs (run w).trace ∧
      httpEvents (run w).trace = []) ∧
    (∀ sv, w.envServer = some sv → w.envToken = Option.none →
      (run w).exitCode = 1 ∧
      "Please set the NUMAPDE_GITLAB_TOKEN variable to your personal Gitlab access token." ∈
        printedMsgs (run w).trace ∧
      httpEvents (run w).trace = []) := by
  constructor
  · intro h
    unfold run
    rw [h]
    exact ⟨rfl, by simp [printedMsgs], rfl⟩
  · intro sv h1 h2
    unfold run
    rw [h1, h2]
    exact ⟨rfl, by simp [printedMsgs], rfl⟩

theorem missing_env_var_exits_without_http_witness :
    ((run wNoServer).exitCode = 1 ∧
      "Please set the NUMAPDE_GITLAB_SERVER variable." ∈ printedMsgs (run wNoServer).trace ∧
      httpEvents (run wNoServer).trace = []) ∧
    ((run wNoToken).exitCode = 1 ∧
      "Please set the NUMAPDE_GITLAB_TOKEN variable to your personal Gitlab access token." ∈
        printedMsgs (run wNoToken).trace ∧
      httpEvents (run wNoToken).trace = []) :=
  ⟨(missing_env_var_exits_without_http wNoServer).1 rfl,
   (missing_env_var_exits_without_http wNoToken).2 "gitlab.example.org" rfl rfl⟩

lemma replaceCharAux_eq_map (old new : Char) (l : List Char) :
    replaceCharAux old new l = l.map (fun c => if c = old then new else c) := by
  induction l with
  | nil => rfl
  | cons c cs ih => simp [replaceCharAux, ih]

/-- C5: every space of the `shortTitle` argument is replaced by a hyphen,
all other characters are unchanged, and the result is the `path` field of
the fork request payload. -/
theorem short_title_spaces_to_hyphens (w : World) (sv tk : String)
    (hs : w.envServer = some sv) (ht : w.envToken = some tk) :
    Event.httpPost (forkUrl sv) (fplOf w) ∈ (run w).trace ∧
    (fplOf w).lookup "path" = some (PVal.str (pyReplaceChar w.shortTitleArg ' ' '-')) ∧
    (pyReplaceChar w.shortTitleArg ' ' '-').data =
      w.shortTitleArg.data.map (fun c => if c = ' ' then '-' else c) := by
  refine ⟨mem_run_of_mem_runMain w sv tk hs ht _ (forkPost_mem w sv), rfl, ?_⟩
  exact replaceCharAux_eq_map ' ' '-' w.shortTitleArg.data

theorem short_title_spaces_to_hyphens_witness :
    Event.httpPost (forkUrl "gitlab.example.org") (fplOf wBase) ∈ (run wBase).trace ∧
    (fplOf wBase).lookup "path" = some (PVal.str "Riemannian-ADMM") ∧
    ("Riemannian-ADMM" : String).data =
      ("Riemannian ADMM" : String).data.map (fun c => if c = ' ' then '-' else c) :=
  short_title_spaces_to_hyphens wBase "gitlab.example.org" "token123" rfl rfl

/-- C9: the README commit PUT always carries branch `master` in its
payload, whatever `default_branch` the polling observed. -/
theorem readme_commit_targets_master (w : World) (sv tk r : String)
    (hs : w.envServer = some sv) (ht : w.envToken = some tk)
    (hf : w.forkStatus = POST_OK) (hp : pollFinal w ≠ Option.none)
    (hd : w.descStatus = PUT_OK)
    (hm : pyFormat w.readmeTemplate (readmeMap w.longTitle w.forkHttpUrl w.forkSshUrl) = some r) :
    Event.httpPut (readmeUrlOf sv w.forkId) (rplOf w r) ∈ (run w).trace ∧
    (rplOf w r).lookup "branch" = some (PVal.str "master") :=
  ⟨mem_run_of_mem_runMain w sv tk hs ht _ (readmePut_mem w sv r hf hp hd hm), rfl⟩

theorem readme_commit_targets_master_witness :
    wMain.pollBranch 0 = some "main" ∧
    Event.httpPut (readmeUrlOf "gitlab.example.org" 7)
      (rplOf wMain "# ADMM on Riemannian manifolds\nClone: git@gitlab.example.org:numapde/Publications/Riemannian-ADMM.git\nWeb: https://gitlab.example.org/numapde/Publications/Riemannian-ADMM.git\n") ∈
      (run wMain).trace ∧
    (rplOf wMain "# ADMM on Riemannian manifolds\nClone: git@gitlab.example.org:numapde/Publications/Riemannian-ADMM.git\nWeb: https://gitlab.example.org/numapde/Publications/Riemannian-ADMM.git\n").lookup
      "branch" = some (PVal.str "master") :=
  have h := readme_commit_targets_master wMain "gitlab.example.org" "token123"
    "# ADMM on Riemannian manifolds\nClone: git@gitlab.example.org:numapde/Publications/Riemannian-ADMM.git\nWeb: https://gitlab.example.org/numapde/Publications/Riemannian-ADMM.git\n"
    rfl rfl rfl (by decide) rfl rfl
  ⟨rfl, h.1, h.2⟩

/-- C10: an optional flag passed without a value parses to `None` rather
than its documented default, and that `None` is what enters the fork
payload (for the namespace) and the description-update payload (for the
description). -/
theorem flag_without_value_yields_none (w : World) (sv tk : String)
    (hs : w.envServer = some sv) (ht : w.envToken = some tk) :
    (w.namespaceArg = FlagArg.presentNoValue →
      parseFlag namespaceDefault w.namespaceArg = Option.none ∧
      Event.httpPost (forkUrl sv) (fplOf w) ∈ (run w).trace ∧
      (fplOf w).lookup "namespace" = some PVal.null) ∧
    (w.descriptionArg = FlagArg.presentNoValue → w.forkStatus = POST_OK →
      pollFinal w ≠ Option.none →
      parseFlag "" w.descriptionArg = Option.none ∧
      Event.httpPut (urlFormat sv w.forkId) (dplOf w) ∈ (run w).trace ∧
      (dplOf w).lookup "description" = some PVal.null) := by
  constructor
  · intro hn
    refine ⟨by rw [hn]; rfl, mem_run_of_mem_runMain w sv tk hs ht _ (forkPost_mem w sv), ?_⟩
    unfold fplOf forkPayloadOf
    rw [hn]
    rfl
  · intro hnv hf hp
    refine ⟨by rw [hnv]; rfl, mem_run_of_mem_runMain w sv tk hs ht _ (descPut_mem w sv hf hp), ?_⟩
    unfold dplOf
    rw [hnv]
    rfl

theorem flag_without_value_yields_none_witness :
    (parseFlag namespaceDefault wBareFlags.namespaceArg = Option.none ∧
      Event.httpPost (forkUrl "gitlab.example.org") (fplOf wBareFlags) ∈ (run wBareFlags).trace ∧
      (fplOf wBareFlags).lookup "namespace" = some PVal.null) ∧
    (parseFlag "" wBareFlags.descriptionArg = Option.none ∧
      Event.httpPut (urlFormat "gitlab.example.org" 7) (dplOf wBareFlags) ∈ (run wBareFlags).trace ∧
      (dplOf wBareFlags).lookup "description" = some PVal.null) :=
  have h := flag_without_value_yields_none wBareFlags "gitlab.example.org" "token123" rfl rfl
  ⟨h.1 rfl, h.2 rfl rfl (by decide)⟩

/-- C2 counterexample: a run with `NUMAPDE_GITLAB_SERVER` unset exits
with code 1 although every HTTP call (there are none) succeeds in the
sense of `httpSuccess`, so exit code 0 does not follow from HTTP success
on every run. -/
theorem exit_code_claim_counterexample :
    httpSuccess wNoServer ∧ (run wNoServer).exitCode = 1 :=
  ⟨⟨rfl, by decide, rfl, rfl⟩, rfl⟩

/-- C2 as amended: on every run in which both environment variables are
set and the README template formats without error, the exit code is 0 or
1; it is 0 exactly when the fork POST, the poll, and the two PUTs all
succeed; and whenever it is 1 the last observable event is a diagnostic
printed to standard output. -/
theorem exit_code_success_failure (w : World) (sv tk r : String)
    (hs : w.envServer = some sv) (ht : w.envToken = some tk)
    (hfm : pyFormat w.readmeTemplate (readmeMap w.longTitle w.forkHttpUrl w.forkSshUrl) = some r) :
    ((run w).exitCode = 0 ∨ (run w).exitCode = 1) ∧
    ((run w).exitCode = 0 ↔ httpSuccess w) ∧
    ((run w).exitCode = 1 → ∃ msg, (run w).trace.getLast? = some (Event.print msg)) := by
  have hrun := run_some w sv tk hs ht
  by_cases hf : w.forkStatus = POST_OK
  · by_cases hp : pollFinal w = Option.none
    · have hmt := runMain_timeout w sv hf hp
      have hexit : (run w).exitCode = 1 := by rw [hrun, hmt]
      have hfail : ¬ httpSuccess w := fun h => h.2.1 hp
      refine ⟨Or.inr hexit, by rw [hexit]; exact iff_of_false (by omega) hfail, ?_⟩
      intro _
      refine ⟨timeoutMsg sv (parseFlag namespaceDefault w.namespaceArg), ?_⟩
      rw [hrun, hmt]
      show (envTrace ++ (pre3Of w sv ++
        [Event.print (timeoutMsg sv (parseFlag namespaceDefault w.namespaceArg))])).getLast? = _
      rw [← List.append_assoc]
      exact List.getLast?_concat _
    · by_cases hd : w.descStatus = PUT_OK
      · by_cases hr : w.readmeStatus = PUT_OK
        · have hok := runMain_ok w sv r hf hp hd hfm hr
          have hexit : (run w).exitCode = 0 := by rw [hrun, hok]
          refine ⟨Or.inl hexit, by rw [hexit]; exact iff_of_true rfl ⟨hf, hp, hd, hr⟩, ?_⟩
          intro h
          rw [hexit] at h
          omega
        · have hrf := runMain_readmeFail w sv r hf hp hd hfm hr
          have hexit : (run w).exitCode = 1 := by rw [hrun, hrf]
          have hfail : ¬ httpSuccess w := fun h => hr h.2.2.2
          refine ⟨Or.inr hexit, by rw [hexit]; exact iff_of_false (by omega) hfail, ?_⟩
          intro _
          refine ⟨readmeFailMsg w.readmeText, ?_⟩
          rw [hrun, hrf]
          show (envTrace ++ (pre6Of w sv r ++
            [Event.print (readmeFailMsg w.readmeText)])).getLast? = _
          rw [← List.append_assoc]
          exact List.getLast?_concat _
      · have hdf := runMain_descFail w sv hf hp hd
        have hexit : (run w).exitCode = 1 := by rw [hrun, hdf]
        have hfail : ¬ httpSuccess w := fun h => hd h.2.2.1
        refine ⟨Or.inr hexit, by rw [hexit]; exact iff_of_false (by omega) hfail, ?_⟩
        intro _
        refine ⟨descFailMsg w.descText, ?_⟩
        rw [hrun, hdf]
        show (envTrace ++ (pre4Of w sv ++
          [Event.print (descFailMsg w.descText)])).getLast? = _
        rw [← List.append_assoc]
        exact List.getLast?_concat _
  · have hff := runMain_forkFail w sv hf
    have hexit : (run w).exitCode = 1 := by rw [hrun, hff]
    have hfail : ¬ httpSuccess w := fun h => hf h.1
    refine ⟨Or.inr hexit, by rw [hexit]; exact iff_of_false (by omega) hfail, ?_⟩
    intro _
    refine ⟨forkFailMsg w.forkStatus w.forkText, ?_⟩
    rw [hrun, hff]
    show (envTrace ++ (preOf w sv ++
      [Event.print (forkFailMsg w.forkStatus w.forkText)])).getLast? = _
    rw [← List.append_assoc]
    exact List.getLast?_concat _

theorem exit_code_success_failure_witness :
    (run wBase).exitCode = 0 ∧ httpSuccess wBase :=
  have h := exit_code_success_failure wBase "gitlab.example.org" "token123"
    "# ADMM on Riemannian manifolds\nClone: git@gitlab.example.org:numapde/Publications/Riemannian-ADMM.git\nWeb: https://gitlab.example.org/numapde/Publications/Riemannian-ADMM.git\n"
    rfl rfl rfl
  have hsucc : httpSuccess wBase := ⟨rfl, by decide, rfl, rfl⟩
  ⟨h.2.1.mpr hsucc, hsucc⟩

lemma leadsList_refl_append (a b : List Char) : leadsList a (a ++ b) = true := by
  induction a with
  | nil => rfl
  | cons c cs ih => simp [leadsList, ih]

lemma occursIn_of_leads (n l : List Char) (h : leadsList n l = true) :
    occursIn n l = true := by
  cases l with
  | nil => exact h
  | cons c cs => simp [occursIn, h]

lemma occursIn_cons (n : List Char) (c : Char) (cs : List Char)
    (h : occursIn n cs = true) : occursIn n (c :: cs) = true := by
  simp [occursIn, h]

lemma occursIn_append_left (n a l : List Char) (h : occursIn n l = true) :
    occursIn n (a ++ l) = true := by
  induction a with
  | nil => exact h
  | cons c cs ih => exact occursIn_cons n c _ ih

lemma occursIn_mid (n a b : List Char) : occursIn n (a ++ (n ++ b)) = true :=
  occursIn_append_left n a _ (occursIn_of_leads n _ (leadsList_refl_append n b))

/-- The fork failure diagnostic contains both the status code and the
response body. -/
lemma forkFailMsg_contains (st : Nat) (txt : String) :
    occursIn (toString st).data (forkFailMsg st txt).data = true ∧
    occursIn txt.data (forkFailMsg st txt).data = true := by
  constructor
  · have h : (forkFailMsg st txt).data =
        ("Something went wrong during forking. The status code is " : String).data ++
          ((toString st).data ++ (" and the result text is " ++ txt ++ "." : String).data) := by
      simp [forkFailMsg, String.data_append, List.append_assoc]
    rw [h]
    exact occursIn_mid _ _ _
  · have h : (forkFailMsg st txt).data =
        ("Something went wrong during forking. The status code is " ++ toString st ++
            " and the result text is " : String).data ++
          (txt.data ++ ("." : String).data) := by
      simp [forkFailMsg, String.data_append, List.append_assoc]
    rw [h]
    exact occursIn_mid _ _ _

/-- C3 counterexample: when the description PUT fails with status 404 the
run exits 1 but no printed message contains the status code, so the claim
that every non-expected status is printed together with the body is false. -/
theorem put_failure_omits_status_counterexample :
    (run wDescFail).exitCode = 1 ∧ wDescFail.descStatus ≠ PUT_OK ∧
    ((printedMsgs (run wDescFail).trace).all
      (fun msg => ! occursIn (toString wDescFail.descStatus).data msg.data)) = true :=
  ⟨rfl, by decide, by decide⟩

/-- C3 as amended: on a non-expected status of the fork POST the script
prints a diagnostic containing both the status code and the response body
and exits 1; on a non-expected status of the description PUT or of the
README PUT it prints a diagnostic containing the response body only (the
fixed message text followed by the body, without the status code) and
exits 1; poll GET statuses are never checked. -/
theorem http_error_diagnostics (w : World) (sv tk : String)
    (hs : w.envServer = some sv) (ht : w.envToken = some tk) :
    (w.forkStatus ≠ POST_OK →
      (run w).exitCode = 1 ∧
      forkFailMsg w.forkStatus w.forkText ∈ printedMsgs (run w).trace ∧
      occursIn (toString w.forkStatus).data (forkFailMsg w.forkStatus w.forkText).data = true ∧
      occursIn w.forkText.data (forkFailMsg w.forkStatus w.forkText).data = true) ∧
    (w.forkStatus = POST_OK → pollFinal w ≠ Option.none → w.descStatus ≠ PUT_OK →
      (run w).exitCode = 1 ∧ descFailMsg w.descText ∈ printedMsgs (run w).trace) ∧
    (∀ r, w.forkStatus = POST_OK → pollFinal w ≠ Option.none → w.descStatus = PUT_OK →
      pyFormat w.readmeTemplate (readmeMap w.longTitle w.forkHttpUrl w.forkSshUrl) = some r →
      w.readmeStatus ≠ PUT_OK →
      (run w).exitCode = 1 ∧ readmeFailMsg w.readmeText ∈ printedMsgs (run w).trace) := by
  have hrun := run_some w sv tk hs ht
  refine ⟨?_, ?_, ?_⟩
  · intro hf
    have hff := runMain_forkFail w sv hf
    refine ⟨by rw [hrun, hff], ?_, (forkFailMsg_contains _ _).1, (forkFailMsg_contains _ _).2⟩
    rw [hrun, hff]
    show _ ∈ printedMsgs (envTrace ++ (preOf w sv ++
      [Event.print (forkFailMsg w.forkStatus w.forkText)]))
    rw [printedMsgs_append, printedMsgs_append]
    refine List.mem_append.mpr (Or.inr (List.mem_append.mpr (Or.inr ?_)))
    simp [printedMsgs]
  · intro hf hp hd
    have hdf := runMain_descFail w sv hf hp hd
    refine ⟨by rw [hrun, hdf], ?_⟩
    rw [hrun, hdf]
    show _ ∈ printedMsgs (envTrace ++ (pre4Of w sv ++
      [Event.print (descFailMsg w.descText)]))
    rw [printedMsgs_append, printedMsgs_append]
    refine List.mem_append.mpr (Or.inr (List.mem_append.mpr (Or.inr ?_)))
    simp [printedMsgs]
  · intro r hf hp hd hfm hr
    have hrf := runMain_readmeFail w sv r hf hp hd hfm hr
    refine ⟨by rw [hrun, hrf], ?_⟩
    rw [hrun, hrf]
    show _ ∈ printedMsgs (envTrace ++ (pre6Of w sv r ++
      [Event.print (readmeFailMsg w.readmeText)]))
    rw [printedMsgs_append, printedMsgs_append]
    refine List.mem_append.mpr (Or.inr (List.mem_append.mpr (Or.inr ?_)))
    simp [printedMsgs]

theorem http_error_diagnostics_witness :
    (run wForkFail).exitCode = 1 ∧
    forkFailMsg 500 "Server Error" ∈ printedMsgs (run wForkFail).trace ∧
    occursIn (toString (500 : Nat)).data (forkFailMsg 500 "Server Error").data = true ∧
    occursIn ("Server Error" : String).data (forkFailMsg 500 "Server Error").data = true :=
  (http_error_diagnostics wForkFail "gitlab.example.org" "token123" rfl rfl).1 (by decide)

/-- C7: on the success path the HTTP requests of the run are exactly, in
order: the fork POST, one or more readiness GETs on the new project, the
description PUT on the new project, and the README commit PUT, with no
other request. -/
theorem api_call_sequence (w : World) (sv tk r : String)
    (hs : w.envServer = some sv) (ht : w.envToken = some tk)
    (hf : w.forkStatus = POST_OK) (hp : pollFinal w ≠ Option.none)
    (hd : w.descStatus = PUT_OK)
    (hfm : pyFormat w.readmeTemplate (readmeMap w.longTitle w.forkHttpUrl w.forkSshUrl) = some r)
    (hr : w.readmeStatus = PUT_OK) :
    ∃ n, 1 ≤ n ∧
      httpEvents (run w).trace =
        Event.httpPost (forkUrl sv) (fplOf w) ::
          (List.replicate n (Event.httpGet (urlFormat sv w.forkId)) ++
            [Event.httpPut (urlFormat sv w.forkId) (dplOf w),
             Event.httpPut (readmeUrlOf sv w.forkId) (rplOf w r)]) := by
  obtain ⟨m, hm, he⟩ := pollLoop_evts w.pollBranch (urlFormat sv w.forkId) 5 0 (w.pollBranch 0)
  refine ⟨m + 1, by omega, ?_⟩
  rw [run_some w sv tk hs ht, runMain_ok w sv r hf hp hd hfm hr]
  show httpEvents (envTrace ++ (pre6Of w sv r ++
    [Event.print (successMsg1 w.forkSshUrl), Event.print successMsg2])) = _
  unfold httpEvents pre6Of pre5Of pre4Of pre3Of pre2Of pollEvOf
  rw [he]
  have h1 : List.filter isHttp envTrace = [] := rfl
  have h2 : List.filter isHttp (preOf w sv) = [Event.httpPost (forkUrl sv) (fplOf w)] := rfl
  have h3 : List.filter isHttp [Event.print waitingMsg, Event.httpGet (urlFormat sv w.forkId)] =
      [Event.httpGet (urlFormat sv w.forkId)] := rfl
  have h4 : List.filter isHttp [Event.httpPut (urlFormat sv w.forkId) (dplOf w)] =
      [Event.httpPut (urlFormat sv w.forkId) (dplOf w)] := rfl
  have h5 : List.filter isHttp [Event.print ("Using template " ++ rpOf w ++ "."),
      Event.fileRead (rpOf w)] = [] := rfl
  have h6 : List.filter isHttp [Event.httpPut (readmeUrlOf sv w.forkId) (rplOf w r)] =
      [Event.httpPut (readmeUrlOf sv w.forkId) (rplOf w r)] := rfl
  have h7 : List.filter isHttp [Event.print (successMsg1 w.forkSshUrl),
      Event.print successMsg2] = [] := rfl
  simp only [List.filter_append, h1, h2, h3, h4, h5, h6, h7, pollEvts_filter_http]
  simp [List.replicate_succ, List.append_assoc]

theorem api_call_sequence_witness :
    ∃ n, 1 ≤ n ∧
      httpEvents (run wBase).trace =
        Event.httpPost (forkUrl "gitlab.example.org") (fplOf wBase) ::
          (List.replicate n (Event.httpGet (urlFormat "gitlab.example.org" 7)) ++
            [Event.httpPut (urlFormat "gitlab.example.org" 7) (dplOf wBase),
             Event.httpPut (readmeUrlOf "gitlab.example.org" 7)
               (rplOf wBase "# ADMM on Riemannian manifolds\nClone: git@gitlab.example.org:numapde/Publications/Riemannian-ADMM.git\nWeb: https://gitlab.example.org/numapde/Publications/Riemannian-ADMM.git\n")]) :=
  api_call_sequence wBase "gitlab.example.org" "token123"
    "# ADMM on Riemannian manifolds\nClone: git@gitlab.example.org:numapde/Publications/Riemannian-ADMM.git\nWeb: https://gitlab.example.org/numapde/Publications/Riemannian-ADMM.git\n"
    rfl rfl rfl (by decide) rfl rfl rfl

/-- C8 counterexample: in a concrete successful run the very first event
is the read of `NUMAPDE_GITLAB_SERVER` and argument parsing only comes
second, so execution does not begin with command-line argument parsing as
the claim states. -/
theorem server_env_read_before_parsing_counterexample :
    Event.argParse ∈ (run wBase).trace ∧
    firstIdx (Event.envRead "NUMAPDE_GITLAB_SERVER") (run wBase).trace = some 0 ∧
    firstIdx Event.argParse (run wBase).trace = some 1 ∧
    ¬ List.Sublist [Event.argParse, Event.envRead "NUMAPDE_GITLAB_SERVER"] (run wBase).trace :=
  ⟨by decide, rfl, rfl, by decide⟩

/-- C8 as amended: execution reads and checks the server address variable
first, then parses the command-line arguments, then reads the token
variable; after that the fork POST, a readiness GET, the description PUT,
the README commit PUT, and the success instructions follow, strictly in
this order. -/
theorem execution_order (w : World) (sv tk r : String)
    (hs : w.envServer = some sv) (ht : w.envToken = some tk)
    (hf : w.forkStatus = POST_OK) (hp : pollFinal w ≠ Option.none)
    (hd : w.descStatus = PUT_OK)
    (hfm : pyFormat w.readmeTemplate (readmeMap w.longTitle w.forkHttpUrl w.forkSshUrl) = some r)
    (hr : w.readmeStatus = PUT_OK) :
    List.Sublist
      [Event.envRead "NUMAPDE_GITLAB_SERVER", Event.argParse,
       Event.envRead "NUMAPDE_GITLAB_TOKEN",
       Event.httpPost (forkUrl sv) (fplOf w),
       Event.httpGet (urlFormat sv w.forkId),
       Event.httpPut (urlFormat sv w.forkId) (dplOf w),
       Event.httpPut (readmeUrlOf sv w.forkId) (rplOf w r),
       Event.print (successMsg1 w.forkSshUrl)]
      (run w).trace := by
  rw [run_some w sv tk hs ht, runMain_ok w sv r hf hp hd hfm hr]
  show List.Sublist _ (envTrace ++ (pre6Of w sv r ++
    [Event.print (successMsg1 w.forkSshUrl), Event.print successMsg2]))
  have hassoc : pre6Of w sv r ++
      [Event.print (successMsg1 w.forkSshUrl), Event.print successMsg2] =
      preOf w sv ++ ([Event.print waitingMsg, Event.httpGet (urlFormat sv w.forkId)] ++
        (pollEvOf w sv ++ ([Event.httpPut (urlFormat sv w.forkId) (dplOf w)] ++
          ([Event.print ("Using template " ++ rpOf w ++ "."), Event.fileRead (rpOf w)] ++
            ([Event.httpPut (readmeUrlOf sv w.forkId) (rplOf w r)] ++
              [Event.print (successMsg1 w.forkSshUrl), Event.print successMsg2]))))) := by
    simp [pre6Of, pre5Of, pre4Of, pre3Of, pre2Of, List.append_assoc]
  rw [hassoc]
  show List.Sublist
    ([Event.envRead "NUMAPDE_GITLAB_SERVER", Event.argParse,
      Event.envRead "NUMAPDE_GITLAB_TOKEN"] ++
      ([Event.httpPost (forkUrl sv) (fplOf w)] ++
        ([Event.httpGet (urlFormat sv w.forkId)] ++
          (([] : List Event) ++
            ([Event.httpPut (urlFormat sv w.forkId) (dplOf w)] ++
              (([] : List Event) ++
                ([Event.httpPut (readmeUrlOf sv w.forkId) (rplOf w r)] ++
                  [Event.print (successMsg1 w.forkSshUrl)])))))))
    (envTrace ++ (preOf w sv ++
      ([Event.print waitingMsg, Event.httpGet (urlFormat sv w.forkId)] ++
        (pollEvOf w sv ++ ([Event.httpPut (urlFormat sv w.forkId) (dplOf w)] ++
          ([Event.print ("Using template " ++ rpOf w ++ "."), Event.fileRead (rpOf w)] ++
            ([Event.httpPut (readmeUrlOf sv w.forkId) (rplOf w r)] ++
              [Event.print (successMsg1 w.forkSshUrl), Event.print successMsg2])))))))
  exact List.Sublist.append (List.Sublist.refl _)
    (List.Sublist.append (List.Sublist.cons _ (List.Sublist.refl _))
      (List.Sublist.append (List.Sublist.cons _ (List.Sublist.refl _))
        (List.Sublist.append (List.nil_sublist _)
          (List.Sublist.append (List.Sublist.refl _)
            (List.Sublist.append (List.nil_sublist _)
              (List.Sublist.append (List.Sublist.refl _)
                (List.Sublist.cons₂ _ (List.Sublist.cons _ List.Sublist.slnil))))))))

theorem execution_order_witness :
    List.Sublist
      [Event.envRead "NUMAPDE_GITLAB_SERVER", Event.argParse,
       Event.envRead "NUMAPDE_GITLAB_TOKEN",
       Event.httpPost (forkUrl "gitlab.example.org") (fplOf wBase),
       Event.httpGet (urlFormat "gitlab.example.org" 7),
       Event.httpPut (urlFormat "gitlab.example.org" 7) (dplOf wBase),
       Event.httpPut (readmeUrlOf "gitlab.example.org" 7)
         (rplOf wBase "# ADMM on Riemannian manifolds\nClone: git@gitlab.example.org:numapde/Publications/Riemannian-ADMM.git\nWeb: https://gitlab.example.org/numapde/Publications/Riemannian-ADMM.git\n"),
       Event.print (successMsg1 wBase.forkSshUrl)]
      (run wBase).trace :=
  execution_order wBase "gitlab.example.org" "token123"
    "# ADMM on Riemannian manifolds\nClone: git@gitlab.example.org:numapde/Publications/Riemannian-ADMM.git\nWeb: https://gitlab.example.org/numapde/Publications/Riemannian-ADMM.git\n"
    rfl rfl rfl (by decide) rfl rfl rfl

lemma fmt_plain (m : String → Option String) (a rest : List Char)
    (ha : ∀ c ∈ a, c ≠ '%') :
    pyFmtSM m .normal (a ++ rest) = (pyFmtSM m .normal rest).map (fun r => a ++ r) := by
  induction a with
  | nil =>
    simp only [List.nil_append]
    cases pyFmtSM m .normal rest <;> rfl
  | cons c cs ih =>
    have hc : c ≠ '%' := ha c (List.mem_cons_self c cs)
    have ih' := ih (fun x hx => ha x (List.mem_cons_of_mem c hx))
    simp only [List.cons_append, pyFmtSM, if_neg hc, List.append_eq]
    rw [ih']
    cases pyFmtSM m .normal rest <;> rfl

lemma fmt_plain_whole (m : String → Option String) (a : List Char)
    (ha : ∀ c ∈ a, c ≠ '%') : pyFmtSM m .normal a = some a := by
  have h := fmt_plain m a [] ha
  rw [List.append_nil] at h
  rw [h]
  simp [pyFmtSM]

lemma fmt_inKey (m : String → Option String) (k : List Char) :
    ∀ acc rest, (∀ c ∈ k, c ≠ ')') →
      pyFmtSM m (.inKey acc) (k ++ ')' :: rest) = pyFmtSM m (.afterKey (acc ++ k)) rest := by
  induction k with
  | nil =>
    intro acc rest _
    simp [pyFmtSM]
  | cons c cs ih =>
    intro acc rest hk
    have hc : c ≠ ')' := hk c (List.mem_cons_self c cs)
    simp only [List.cons_append, pyFmtSM, if_neg hc, List.append_eq]
    rw [ih (acc ++ [c]) rest (fun x hx => hk x (List.mem_cons_of_mem c hx))]
    simp [List.append_assoc]

lemma fmt_key (m : String → Option String) (k : List Char) (v : String) (rest : List Char)
    (hk : ∀ c ∈ k, c ≠ ')') (hv : m (String.mk k) = some v) :
    pyFmtSM m .normal ('%' :: '(' :: (k ++ ')' :: 's' :: rest)) =
      (pyFmtSM m .normal rest).map (fun r => v.data ++ r) := by
  have h1 : pyFmtSM m .normal ('%' :: '(' :: (k ++ ')' :: 's' :: rest)) =
      pyFmtSM m (.inKey []) (k ++ ')' :: 's' :: rest) := rfl
  rw [h1, fmt_inKey m k [] ('s' :: rest) hk]
  have h2 : pyFmtSM m (.afterKey ([] ++ k)) ('s' :: rest) =
      match m (String.mk ([] ++ k)) with
      | some v' => (pyFmtSM m .normal rest).map (fun r => v'.data ++ r)
      | Option.none => Option.none := rfl
  rw [h2]
  simp only [List.nil_append]
  rw [hv]

/-- The effect of Python percent-formatting on a template made of three
`%(key)s` directives separated by percent-free segments: each directive is
replaced by the mapping's value for its key and the segments are kept. -/
lemma pyFmtSM_three (m : String → Option String)
    (a b c d k1 k2 k3 : List Char) (v1 v2 v3 : String)
    (ha : ∀ ch ∈ a, ch ≠ '%') (hb : ∀ ch ∈ b, ch ≠ '%')
    (hc : ∀ ch ∈ c, ch ≠ '%') (hd : ∀ ch ∈ d, ch ≠ '%')
    (hk1 : ∀ ch ∈ k1, ch ≠ ')') (hk2 : ∀ ch ∈ k2, ch ≠ ')')
    (hk3 : ∀ ch ∈ k3, ch ≠ ')')
    (hv1 : m (String.mk k1) = some v1) (hv2 : m (String.mk k2) = some v2)
    (hv3 : m (String.mk k3) = some v3) :
    pyFmtSM m .normal
      (a ++ '%' :: '(' :: (k1 ++ ')' :: 's' ::
        (b ++ '%' :: '(' :: (k2 ++ ')' :: 's' ::
          (c ++ '%' :: '(' :: (k3 ++ ')' :: 's' :: d)))))) =
      some (a ++ (v1.data ++ (b ++ (v2.data ++ (c ++ (v3.data ++ d)))))) := by
  rw [fmt_plain m a _ ha, fmt_key m k1 v1 _ hk1 hv1, fmt_plain m b _ hb,
    fmt_key m k2 v2 _ hk2 hv2, fmt_plain m c _ hc, fmt_key m k3 v3 _ hk3 hv3,
    fmt_plain_whole m d hd]
  rfl

/-- Python percent-formatting of a three-placeholder README template at
string level. -/
lemma pyFormat_readme (m : String → Option String) (ta tb tc td v1 v2 v3 : String)
    (ha : ∀ ch ∈ ta.data, ch ≠ '%') (hb : ∀ ch ∈ tb.data, ch ≠ '%')
    (hc : ∀ ch ∈ tc.data, ch ≠ '%') (hd : ∀ ch ∈ td.data, ch ≠ '%')
    (hv1 : m "PUBLICATION_TITLE" = some v1)
    (hv2 : m "HTTP_URL_TO_REPO" = some v2)
    (hv3 : m "SSH_URL_TO_REPO" = some v3) :
    pyFormat (ta ++ "%(PUBLICATION_TITLE)s" ++ tb ++ "%(HTTP_URL_TO_REPO)s" ++
        tc ++ "%(SSH_URL_TO_REPO)s" ++ td) m =
      some (ta ++ v1 ++ tb ++ v2 ++ tc ++ v3 ++ td) := by
  have e1 : ("%(PUBLICATION_TITLE)s" : String).data =
      '%' :: '(' :: (("PUBLICATION_TITLE" : String).data ++ [')', 's']) := rfl
  have e2 : ("%(HTTP_URL_TO_REPO)s" : String).data =
      '%' :: '(' :: (("HTTP_URL_TO_REPO" : String).data ++ [')', 's']) := rfl
  have e3 : ("%(SSH_URL_TO_REPO)s" : String).data =
      '%' :: '(' :: (("SSH_URL_TO_REPO" : String).data ++ [')', 's']) := rfl
  have hdata : (ta ++ "%(PUBLICATION_TITLE)s" ++ tb ++ "%(HTTP_URL_TO_REPO)s" ++
      tc ++ "%(SSH_URL_TO_REPO)s" ++ td).data =
      ta.data ++ '%' :: '(' :: (("PUBLICATION_TITLE" : String).data ++ ')' :: 's' ::
        (tb.data ++ '%' :: '(' :: (("HTTP_URL_TO_REPO" : String).data ++ ')' :: 's' ::
          (tc.data ++ '%' :: '(' :: (("SSH_URL_TO_REPO" : String).data ++ ')' :: 's' ::
            td.data))))) := by
    simp [String.data_append, e1, e2, e3, List.append_assoc]
  unfold pyFormat
  rw [hdata,
    pyFmtSM_three m ta.data tb.data tc.data td.data _ _ _ v1 v2 v3 ha hb hc hd
      (by decide) (by decide) (by decide) hv1 hv2 hv3]
  simp only [Option.map_some']
  congr 1
  apply String.ext
  simp [String.data_append, List.append_assoc]

/-- C6: the README content committed to the new repository is the
`README.md.in` template with `%(PUBLICATION_TITLE)s` replaced by the
`longTitle` argument, `%(HTTP_URL_TO_REPO)s` by the fork response's
`http_url_to_repo`, and `%(SSH_URL_TO_REPO)s` by its `ssh_url_to_repo`,
for any template made of those three placeholders separated by
percent-free text. -/
theorem readme_template_substitution (w : World) (sv tk ta tb tc td : String)
    (hs : w.envServer = some sv) (ht : w.envToken = some tk)
    (hf : w.forkStatus = POST_OK) (hp : pollFinal w ≠ Option.none)
    (hd : w.descStatus = PUT_OK)
    (hshape : w.readmeTemplate = ta ++ "%(PUBLICATION_TITLE)s" ++ tb ++
      "%(HTTP_URL_TO_REPO)s" ++ tc ++ "%(SSH_URL_TO_REPO)s" ++ td)
    (hpa : ∀ ch ∈ ta.data, ch ≠ '%') (hpb : ∀ ch ∈ tb.data, ch ≠ '%')
    (hpc : ∀ ch ∈ tc.data, ch ≠ '%') (hpd : ∀ ch ∈ td.data, ch ≠ '%') :
    pyFormat w.readmeTemplate (readmeMap w.longTitle w.forkHttpUrl w.forkSshUrl) =
      some (ta ++ w.longTitle ++ tb ++ w.forkHttpUrl ++ tc ++ w.forkSshUrl ++ td) ∧
    Event.httpPut (readmeUrlOf sv w.forkId)
      (rplOf w (ta ++ w.longTitle ++ tb ++ w.forkHttpUrl ++ tc ++ w.forkSshUrl ++ td)) ∈
      (run w).trace ∧
    (rplOf w (ta ++ w.longTitle ++ tb ++ w.forkHttpUrl ++ tc ++ w.forkSshUrl ++ td)).lookup
      "content" =
      some (PVal.str (ta ++ w.longTitle ++ tb ++ w.forkHttpUrl ++ tc ++ w.forkSshUrl ++ td)) := by
  have hfm : pyFormat w.readmeTemplate (readmeMap w.longTitle w.forkHttpUrl w.forkSshUrl) =
      some (ta ++ w.longTitle ++ tb ++ w.forkHttpUrl ++ tc ++ w.forkSshUrl ++ td) := by
    rw [hshape]
    exact pyFormat_readme _ ta tb tc td _ _ _ hpa hpb hpc hpd rfl rfl rfl
  exact ⟨hfm, mem_run_of_mem_runMain w sv tk hs ht _ (readmePut_mem w sv _ hf hp hd hfm), rfl⟩

/-- A successful run whose README template lists the placeholders in the
canonical order title, HTTP URL, SSH URL. -/
def wTpl : World :=
  { wBase with readmeTemplate :=
      "# %(PUBLICATION_TITLE)s\nWeb: %(HTTP_URL_TO_REPO)s\nClone: %(SSH_URL_TO_REPO)s\n" }

theorem readme_template_substitution_witness :
    pyFormat wTpl.readmeTemplate
        (readmeMap wTpl.longTitle wTpl.forkHttpUrl wTpl.forkSshUrl) =
      some "# ADMM on Riemannian manifolds\nWeb: https://gitlab.example.org/numapde/Publications/Riemannian-ADMM.git\nClone: git@gitlab.example.org:numapde/Publications/Riemannian-ADMM.git\n" ∧
    Event.httpPut (readmeUrlOf "gitlab.example.org" 7)
      (rplOf wTpl "# ADMM on Riemannian manifolds\nWeb: https://gitlab.example.org/numapde/Publications/Riemannian-ADMM.git\nClone: git@gitlab.example.org:numapde/Publications/Riemannian-ADMM.git\n") ∈
      (run wTpl).trace ∧
    (rplOf wTpl "# ADMM on Riemannian manifolds\nWeb: https://gitlab.example.org/numapde/Publications/Riemannian-ADMM.git\nClone: git@gitlab.example.org:numapde/Publications/Riemannian-ADMM.git\n").lookup
      "content" =
      some (PVal.str "# ADMM on Riemannian manifolds\nWeb: https://gitlab.example.org/numapde/Publications/Riemannian-ADMM.git\nClone: git@gitlab.example.org:numapde/Publications/Riemannian-ADMM.git\n") :=
  readme_template_substitution wTpl "gitlab.example.org" "token123"
    "# " "\nWeb: " "\nClone: " "\n" rfl rfl rfl (by decide) rfl rfl
    (by decide) (by decide) (by decide) (by decide)
